import Mathlib

/-!
Verification development for the Document-Forensics-AI repository.

The embedded code (translated from the TypeScript source):
* `validateAndFixResponse` and the response-handling tail of `analyzeDocument`
  from `src/components/ImageComparison.tsx` (the result normalizer);
* `getModelType`, `MODEL_CATEGORIES` and `createAPIParameterConfig`
  from `src/utils/modelParameterUtils.ts` (the parameter mapper);
* `validateApiKey` and `getEffectiveApiKey` from `src/utils/apiKeyUtils.ts`
  (the key resolver).

JSON values parsed by `JSON.parse` are modelled by the inductive `Json`
below; JavaScript numbers are modelled by `ℚ` (the source performs no
arithmetic on them, only comparisons and selections, so rationals are a
faithful abstraction of the float values that appear).  Rational literals
are written with `Rat.divInt` so that every definition evaluates inside the
kernel (e.g. `Rat.divInt 2 5` is the source literal `0.4`).
-/

/-- Model of a parsed JSON value (the result of `JSON.parse`). -/
inductive Json where
  | null
  | bool (b : Bool)
  | num (q : ℚ)
  | str (s : String)
  | arr (elems : List Json)
  | obj (fields : List (String × Json))

/-- First binding of a key in a JavaScript object literal's field list. -/
def lookupField : List (String × Json) → String → Option Json
  | [], _ => none
  | (k', v) :: rest, k => if k' = k then some v else lookupField rest k

/-- JavaScript property access `j.k` on a parsed JSON value: `none` models
`undefined`.  Property access on a non-object non-null receiver yields
`undefined` in JS; on a `null` receiver JS throws a TypeError instead.
This function totalizes the `null` case to `undefined`, so it computes
exactly the value the source computes whenever the source does not throw.
The inputs on which `validateAndFixResponse` would throw (a null top-level
value, or a null element of a `detailedFindings` array) are characterized
separately by `validateAndFixThrows` and handled in the pipeline model
`normalizeRawText`; on those inputs the total model below yields a value
the source never returns. -/
def getField : Json → String → Option Json
  | Json.obj fields, k => lookupField fields k
  | _, _ => none

/-- Optional chaining `j.k1?.k2` as used for `finding.region?.x`. -/
def getField2 (j : Json) (k1 k2 : String) : Option Json :=
  (getField j k1).bind (fun r => getField r k2)

/-- JavaScript truthiness of a JSON value (`undefined` is handled by the
callers through `Option`). -/
def truthy : Json → Bool
  | Json.null => false
  | Json.bool b => b
  | Json.num q => if q = 0 then false else true
  | Json.str s => if s = "" then false else true
  | Json.arr _ => true
  | Json.obj _ => true

/-- The idiom `Array.isArray(v) ? v : []`. -/
def asArr : Option Json → List Json
  | some (Json.arr elems) => elems
  | _ => []

/-- The idiom `v || "fixed placeholder"` used for the narrative fields. -/
def orDefault (v : Option Json) (d : String) : Json :=
  match v with
  | some j => if truthy j then j else Json.str d
  | none => Json.str d

/-- The idiom `v || null` used for `geometricConsistency` and
`lightingVector`. -/
def orNull (v : Option Json) : Json :=
  match v with
  | some j => if truthy j then j else Json.null
  | none => Json.null

/-- JavaScript `array.includes(s)` for a string `s`: `===` only equates a
string with an equal string, so non-string elements never match. -/
def hasStr : List Json → String → Bool
  | [], _ => false
  | Json.str t :: rest, s => if t = s then true else hasStr rest s
  | _ :: rest, s => hasStr rest s

/-- Number of occurrences of the string `s` in a JSON array. -/
def countStr : List Json → String → Nat
  | [], _ => 0
  | Json.str t :: rest, s => (if t = s then 1 else 0) + countStr rest s
  | _ :: rest, s => countStr rest s

/-- The comparison `v === "s"` on a possibly-undefined JSON value. -/
def isStr (v : Option Json) (s : String) : Bool :=
  match v with
  | some (Json.str t) => t = s
  | _ => false

/-- The clamp `Math.max(0, Math.min(1, q))`. -/
def clamp01 (q : ℚ) : ℚ := max 0 (min 1 q)

/-- The idiom `typeof v === 'number' ? Math.max(0, Math.min(1, v)) : d`. -/
def numClamp (v : Option Json) (d : ℚ) : ℚ :=
  match v with
  | some (Json.num q) => clamp01 q
  | _ => d

/-- Abstain reason pushed in the low-confidence branch of
`validateAndFixResponse`. -/
def lowConfidenceReason : String :=
  "Low confidence due to image quality or ambiguous evidence"

/-- Abstain reason pushed in the moderate-confidence branch of
`validateAndFixResponse`. -/
def moderateConfidenceReason : String :=
  "Moderate confidence requires manual verification"

/-- The four-member `overallAssessment` enumeration checked by the
normalizer. -/
def assessmentEnum : List String :=
  ["LIKELY_AUTHENTIC", "SUSPICIOUS_ANOMALIES_DETECTED", "LIKELY_TAMPERED", "MANUAL_REVIEW"]

/-- Severity values accepted by the normalizer. -/
def severityEnum : List String := ["Low", "Medium", "High"]

/-- Artifact types accepted by the normalizer (the list that appears in
`validateAndFixResponse`). -/
def artifactTypeEnum : List String :=
  ["COMPRESSION", "CLONING", "HALOING", "NOISE_MISMATCH", "KERNING", "RESAMPLING",
   "LIGHTING", "PAPER_TEXTURE", "STAMP_SEAL", "SIGNATURE", "ALIGNMENT", "OTHER"]

/-- Normalized bounding region of a finding (all coordinates clamped by the
normalizer). -/
structure Region where
  x : ℚ
  y : ℚ
  width : ℚ
  height : ℚ

/-- One repaired entry of `detailedFindings`.  Fields whose runtime value
can be an arbitrary JSON value (JS keeps whatever truthy value was there)
are typed `Json`; fields the normalizer always rewrites to a string or a
number get the tighter type. -/
structure DetailedFinding where
  finding : Json
  location : Json
  severity : String
  artifactType : String
  region : Region
  evidenceStrength : ℚ
  benignAlternatives : List Json
  crossChecks : List Json
  geometricConsistency : Json
  lightingVector : Json
  resamplingIndicators : List Json
  cloneMatches : List Json

/-- The normalized report produced by `validateAndFixResponse`. -/
structure AnalysisResult where
  analysisLog : Json
  overallAssessment : String
  confidenceScore : ℚ
  summary : Json
  technicalSummary : Json
  detailedFindings : List DetailedFinding
  coverageNotes : Json
  imageQualityScore : ℚ
  abstainedReasons : List Json
  promptVersion : Json

/-- The push guarded by `includes`: append the reason string only when it is
not already present. -/
def pushIfMissing (xs : List Json) (r : String) : List Json :=
  if hasStr xs r then xs else xs ++ [Json.str r]

/-- Confidence/assessment consistency enforcement of
`validateAndFixResponse` (the three confidence bands).  `Rat.divInt 2 5` is
the literal `0.4` and `Rat.divInt 7 10` is `0.7`.  Returns the possibly
rewritten assessment together with the abstain-reason array after the
conditional pushes (a non-array `abstainedReasons` is replaced by `[]`
before a push, and the final record keeps `[]` for a non-array as well, so
both are `reasons` here). -/
def consistencyStep (c : ℚ) (a0 : Option Json) (reasons : List Json)
    (highCount : Nat) : Option Json × List Json :=
  if c < Rat.divInt 2 5 then
    (some (Json.str "MANUAL_REVIEW"), pushIfMissing reasons lowConfidenceReason)
  else if Rat.divInt 2 5 ≤ c ∧ c < Rat.divInt 7 10 then
    if isStr a0 "SUSPICIOUS_ANOMALIES_DETECTED" || isStr a0 "LIKELY_TAMPERED" then
      (a0, reasons)
    else if isStr a0 "LIKELY_AUTHENTIC" then
      (some (Json.str "MANUAL_REVIEW"), pushIfMissing reasons moderateConfidenceReason)
    else
      (a0, reasons)
  else if Rat.divInt 7 10 ≤ c then
    if isStr a0 "SUSPICIOUS_ANOMALIES_DETECTED" || isStr a0 "LIKELY_TAMPERED" then
      if isStr a0 "LIKELY_TAMPERED" && decide (highCount < 2) then
        (some (Json.str "SUSPICIOUS_ANOMALIES_DETECTED"), reasons)
      else
        (a0, reasons)
    else
      (a0, reasons)
  else
    (a0, reasons)

/-- The final enum validation: any assessment value outside the four-member
enumeration (including a non-string) becomes `MANUAL_REVIEW`. -/
def enumFix (a : Option Json) : String :=
  match a with
  | some (Json.str s) => if s ∈ assessmentEnum then s else "MANUAL_REVIEW"
  | _ => "MANUAL_REVIEW"

/-- Severity repair: `["Low","Medium","High"].includes(v) ? v : "Low"`. -/
def sevFix (v : Option Json) : String :=
  match v with
  | some (Json.str s) => if s ∈ severityEnum then s else "Low"
  | _ => "Low"

/-- Artifact-type repair with fallback `"OTHER"`. -/
def artFix (v : Option Json) : String :=
  match v with
  | some (Json.str s) => if s ∈ artifactTypeEnum then s else "OTHER"
  | _ => "OTHER"

/-- Element-wise repair of one `detailedFindings` entry, translated from the
`map` body in `validateAndFixResponse`.  `Rat.divInt 1 10` is the literal
`0.1` and `Rat.divInt 1 2` is `0.5`.  Note that `cloneMatches`,
`lightingVector`, `benignAlternatives`, `crossChecks` and
`resamplingIndicators` are passed through without numeric repair. -/
def fixFinding (f : Json) : DetailedFinding :=
  { finding := orDefault (getField f "finding") "Unspecified finding"
    location := orDefault (getField f "location") "Unknown location"
    severity := sevFix (getField f "severity")
    artifactType := artFix (getField f "artifactType")
    region :=
      { x := numClamp (getField2 f "region" "x") 0
        y := numClamp (getField2 f "region" "y") 0
        width := numClamp (getField2 f "region" "width") (Rat.divInt 1 10)
        height := numClamp (getField2 f "region" "height") (Rat.divInt 1 10) }
    evidenceStrength := numClamp (getField f "evidenceStrength") (Rat.divInt 1 2)
    benignAlternatives := asArr (getField f "benignAlternatives")
    crossChecks := asArr (getField f "crossChecks")
    geometricConsistency := orNull (getField f "geometricConsistency")
    lightingVector := orNull (getField f "lightingVector")
    resamplingIndicators := asArr (getField f "resamplingIndicators")
    cloneMatches := asArr (getField f "cloneMatches") }

/-- Clamped confidence score: `typeof response.confidenceScore === 'number'
? Math.max(0, Math.min(1, response.confidenceScore)) : 0.5`. -/
def clampedConfidence (response : Json) : ℚ :=
  numClamp (getField response "confidenceScore") (Rat.divInt 1 2)

/-- Number of findings whose raw `severity` field is exactly the string
`"High"` (the `filter` inside the high-confidence branch). -/
def highSeverityCount (response : Json) : Nat :=
  ((asArr (getField response "detailedFindings")).filter
    (fun f => isStr (getField f "severity") "High")).length

/-- Embedding of `validateAndFixResponse` from
`src/components/ImageComparison.tsx`: clamp the confidence, enforce the
confidence/assessment consistency policy, validate the assessment against
the enumeration, and repair every field independently.  This is a total
model: on the null-receiver inputs characterized by `validateAndFixThrows`
the source throws a TypeError instead of returning (see
`normalizeRawText`); on every other input this computes the value the
source returns. -/
def validateAndFixResponse (response : Json) : AnalysisResult :=
  let confidenceScore := clampedConfidence response
  let step := consistencyStep confidenceScore (getField response "overallAssessment")
      (asArr (getField response "abstainedReasons")) (highSeverityCount response)
  { analysisLog := orDefault (getField response "analysisLog")
      "Analysis completed with default values due to parsing issues."
    overallAssessment := enumFix step.1
    confidenceScore := confidenceScore
    summary := orDefault (getField response "summary")
      "Analysis completed with limited confidence."
    technicalSummary := orDefault (getField response "technicalSummary")
      "Technical analysis results inconclusive."
    detailedFindings := (asArr (getField response "detailedFindings")).map fixFinding
    coverageNotes := orDefault (getField response "coverageNotes")
      "Coverage analysis completed."
    imageQualityScore := numClamp (getField response "imageQualityScore") (Rat.divInt 7 10)
    abstainedReasons := step.2
    promptVersion := orDefault (getField response "promptVersion") "v2.2" }

/-- Serialization of a repaired finding back to the JSON value it is at
runtime (a normalized result fed back into the normalizer is exactly this
object). -/
def findingToJson (f : DetailedFinding) : Json :=
  Json.obj
    [("finding", f.finding),
     ("location", f.location),
     ("severity", Json.str f.severity),
     ("artifactType", Json.str f.artifactType),
     ("region", Json.obj
       [("x", Json.num f.region.x), ("y", Json.num f.region.y),
        ("width", Json.num f.region.width), ("height", Json.num f.region.height)]),
     ("evidenceStrength", Json.num f.evidenceStrength),
     ("benignAlternatives", Json.arr f.benignAlternatives),
     ("crossChecks", Json.arr f.crossChecks),
     ("geometricConsistency", f.geometricConsistency),
     ("lightingVector", f.lightingVector),
     ("resamplingIndicators", Json.arr f.resamplingIndicators),
     ("cloneMatches", Json.arr f.cloneMatches)]

/-- Serialization of a normalized result back to the JSON object it is at
runtime. -/
def analysisResultToJson (r : AnalysisResult) : Json :=
  Json.obj
    [("analysisLog", r.analysisLog),
     ("overallAssessment", Json.str r.overallAssessment),
     ("confidenceScore", Json.num r.confidenceScore),
     ("summary", r.summary),
     ("technicalSummary", r.technicalSummary),
     ("detailedFindings", Json.arr (r.detailedFindings.map findingToJson)),
     ("coverageNotes", r.coverageNotes),
     ("imageQualityScore", Json.num r.imageQualityScore),
     ("abstainedReasons", Json.arr r.abstainedReasons),
     ("promptVersion", r.promptVersion)]

/-- Characters treated as whitespace between JSON tokens (the JSON
grammar's `ws`). -/
def jsonWs (c : Char) : Bool :=
  c = ' ' || c = '\t' || c = '\n' || c = '\r'

/-- Skip inter-token whitespace. -/
def skipWs (cs : List Char) : List Char := cs.dropWhile jsonWs

/-- Prepend a character to the string part of a string-parse result. -/
def consCharResult (c : Char) :
    Option (List Char × List Char) → Option (List Char × List Char)
  | some (body, rest) => some (c :: body, rest)
  | none => none

/-- Hexadecimal digit test for `\u` escapes. -/
def isHexDigit (c : Char) : Bool :=
  c.isDigit || ('a' ≤ c && c ≤ 'f') || ('A' ≤ c && c ≤ 'F')

/-- Value of a hexadecimal digit. -/
def hexVal (c : Char) : Nat :=
  if c.isDigit then c.toNat - '0'.toNat
  else if 'a' ≤ c && c ≤ 'f' then c.toNat - 'a'.toNat + 10
  else c.toNat - 'A'.toNat + 10

/-- Body of a JSON string (after the opening quote): returns the decoded
characters and the remaining input.  `\u` escapes outside the valid scalar
range fall back to `Char.ofNat`'s default; unescaped control characters are
accepted (JSON.parse rejects them, a divergence that only makes the model
accept more raw strings than the platform parser). -/
def parseStrChars : List Char → Option (List Char × List Char)
  | [] => none
  | '"' :: rest => some ([], rest)
  | '\\' :: '"' :: rest => consCharResult '"' (parseStrChars rest)
  | '\\' :: '\\' :: rest => consCharResult '\\' (parseStrChars rest)
  | '\\' :: '/' :: rest => consCharResult '/' (parseStrChars rest)
  | '\\' :: 'b' :: rest => consCharResult '\x08' (parseStrChars rest)
  | '\\' :: 'f' :: rest => consCharResult '\x0c' (parseStrChars rest)
  | '\\' :: 'n' :: rest => consCharResult '\n' (parseStrChars rest)
  | '\\' :: 'r' :: rest => consCharResult '\r' (parseStrChars rest)
  | '\\' :: 't' :: rest => consCharResult '\t' (parseStrChars rest)
  | '\\' :: 'u' :: h1 :: h2 :: h3 :: h4 :: rest =>
    if isHexDigit h1 && isHexDigit h2 && isHexDigit h3 && isHexDigit h4 then
      consCharResult
        (Char.ofNat (((hexVal h1 * 16 + hexVal h2) * 16 + hexVal h3) * 16 + hexVal h4))
        (parseStrChars rest)
    else none
  | '\\' :: _ => none
  | c :: rest => consCharResult c (parseStrChars rest)

/-- Numeric value of a digit run. -/
def digitsToNat (ds : List Char) : Nat :=
  ds.foldl (fun n c => 10 * n + (c.toNat - '0'.toNat)) 0

/-- Fractional part of a JSON number: a dot must be followed by at least one
digit. -/
def parseFrac : List Char → Option (List Char × List Char)
  | '.' :: rest =>
    let ds := rest.takeWhile Char.isDigit
    if ds.isEmpty then none else some (ds, rest.drop ds.length)
  | cs => some ([], cs)

/-- Exponent part of a JSON number: sign of the exponent, its digits, and
the remaining input. -/
def parseExp : List Char → Option (Bool × List Char × List Char)
  | c :: rest =>
    if c = 'e' ∨ c = 'E' then
      let signedRest : Bool × List Char :=
        match rest with
        | '+' :: r => (false, r)
        | '-' :: r => (true, r)
        | r => (false, r)
      let ds := signedRest.2.takeWhile Char.isDigit
      if ds.isEmpty then none else some (signedRest.1, ds, signedRest.2.drop ds.length)
    else some (false, [], c :: rest)
  | [] => some (false, [], [])

/-- JSON number literal (optional minus, integer part without leading
zeros, optional fraction, optional exponent), as a rational. -/
def parseNumber (cs : List Char) : Option (Json × List Char) :=
  let signed : Bool × List Char :=
    match cs with
    | '-' :: rest => (true, rest)
    | _ => (false, cs)
  let intDigits := signed.2.takeWhile Char.isDigit
  if intDigits.isEmpty then none
  else if 1 < intDigits.length ∧ intDigits.head? = some '0' then none
  else
    match parseFrac (signed.2.drop intDigits.length) with
    | none => none
    | some (fracDigits, cs3) =>
      match parseExp cs3 with
      | none => none
      | some (expNeg, expDigits, cs4) =>
        let mantNat := digitsToNat (intDigits ++ fracDigits)
        let mant : Int := if signed.1 then -(Int.ofNat mantNat) else Int.ofNat mantNat
        let e := digitsToNat expDigits
        let q : ℚ :=
          if expNeg then Rat.divInt mant (Int.ofNat (10 ^ (fracDigits.length + e)))
          else Rat.divInt (mant * Int.ofNat (10 ^ e)) (Int.ofNat (10 ^ fracDigits.length))
        some (Json.num q, cs4)

mutual

/-- Recursive-descent JSON value parser with explicit fuel (every recursive
call consumes input, so `length + 1` fuel always suffices). -/
def parseValue : Nat → List Char → Option (Json × List Char)
  | 0, _ => none
  | Nat.succ fuel, cs =>
    match skipWs cs with
    | 'n' :: 'u' :: 'l' :: 'l' :: rest => some (Json.null, rest)
    | 't' :: 'r' :: 'u' :: 'e' :: rest => some (Json.bool true, rest)
    | 'f' :: 'a' :: 'l' :: 's' :: 'e' :: rest => some (Json.bool false, rest)
    | '"' :: rest =>
      match parseStrChars rest with
      | some (body, rest2) => some (Json.str (String.mk body), rest2)
      | none => none
    | '[' :: rest =>
      (match skipWs rest with
       | ']' :: rest2 => some (Json.arr [], rest2)
       | _ =>
         match parseElems fuel rest with
         | some (vs, rest2) => some (Json.arr vs, rest2)
         | none => none)
    | '{' :: rest =>
      (match skipWs rest with
       | '}' :: rest2 => some (Json.obj [], rest2)
       | _ =>
         match parseMembers fuel rest with
         | some (ms, rest2) => some (Json.obj ms, rest2)
         | none => none)
    | c :: rest =>
      if c = '-' ∨ c.isDigit then parseNumber (c :: rest) else none
    | [] => none

/-- Comma-separated array elements up to the closing bracket. -/
def parseElems : Nat → List Char → Option (List Json × List Char)
  | 0, _ => none
  | Nat.succ fuel, cs =>
    match parseValue fuel cs with
    | none => none
    | some (v, rest) =>
      match skipWs rest with
      | ',' :: rest2 =>
        (match parseElems fuel rest2 with
         | some (vs, rest3) => some (v :: vs, rest3)
         | none => none)
      | ']' :: rest2 => some ([v], rest2)
      | _ => none

/-- Comma-separated object members up to the closing brace. -/
def parseMembers : Nat → List Char → Option (List (String × Json) × List Char)
  | 0, _ => none
  | Nat.succ fuel, cs =>
    match skipWs cs with
    | '"' :: rest =>
      (match parseStrChars rest with
       | none => none
       | some (key, rest1) =>
         match skipWs rest1 with
         | ':' :: rest2 =>
           (match parseValue fuel rest2 with
            | none => none
            | some (v, rest3) =>
              match skipWs rest3 with
              | ',' :: rest4 =>
                (match parseMembers fuel rest4 with
                 | some (ms, rest5) => some ((String.mk key, v) :: ms, rest5)
                 | none => none)
              | '}' :: rest4 => some ([(String.mk key, v)], rest4)
              | _ => none)
         | _ => none)
    | _ => none

end

/-- Longest-match test used for `text.startsWith(p)`: is `p` a leading run
of `l`. -/
def isPre : List Char → List Char → Bool
  | [], _ => true
  | _ :: _, [] => false
  | c :: cs, d :: ds => if c = d then isPre cs ds else false

/-- JavaScript `text.startsWith(p)` (both strings here are ASCII, so
code-unit and code-point indexing agree). -/
def strStartsWith (s p : String) : Bool := isPre p.data s.data

/-- Model families of `src/utils/modelParameterUtils.ts` (`ModelType` in
`src/types.ts`): `gpt4o` is `'gpt-4o'`, `gpt5` is `'gpt-5'`, `oSeries` is
`'o-series'`, `legacy` is `'legacy'`. -/
inductive ModelType where
  | gpt4o
  | gpt5
  | oSeries
  | legacy
  deriving DecidableEq

/-- One entry of `MODEL_CATEGORIES`. -/
structure ModelCategory where
  models : List String
  type : ModelType
  endpoint : String
  description : String

/-- The `MODEL_CATEGORIES` table, in object-literal insertion order (the
order `Object.entries` iterates). -/
def MODEL_CATEGORIES : List (String × ModelCategory) :=
  [("gpt-4o",
    { models := ["gpt-4o", "gpt-4o-mini", "gpt-4-vision-preview"]
      type := ModelType.gpt4o
      endpoint := "chat/completions"
      description := "Standard GPT-4o models with vision capabilities" }),
   ("gpt-5",
    { models := ["gpt-5", "gpt-5-mini", "gpt-4.1-mini", "gpt-4.1-nano"]
      type := ModelType.gpt5
      endpoint := "chat/completions"
      description := "GPT-5 series models requiring max_completion_tokens" }),
   ("o-series",
    { models := ["o4-mini", "o3"]
      type := ModelType.oSeries
      endpoint := "responses"
      description := "Advanced reasoning models with chain-of-thought capabilities" }),
   ("legacy",
    { models := ["model-router"]
      type := ModelType.legacy
      endpoint := "chat/completions"
      description := "Legacy and specialized routing models" })]

/-- Loop body of `getModelType`: first category whose `models` list contains
the name wins. -/
def findModelType (modelName : String) : List (String × ModelCategory) → ModelType
  | [] => ModelType.legacy
  | (_, category) :: rest =>
    if category.models.contains modelName then category.type
    else findModelType modelName rest

/-- Embedding of `getModelType` from `src/utils/modelParameterUtils.ts`:
static lookup over `MODEL_CATEGORIES` with fallback `'legacy'`. -/
def getModelType (modelName : String) : ModelType :=
  findModelType modelName MODEL_CATEGORIES

/-- ModelFamily of the specification (§3 of the spec): standard
(vision-chat), extended-context, reasoning. -/
inductive ModelFamily where
  | standard
  | extendedContext
  | reasoning
  deriving DecidableEq

/-- Correspondence between the code's `ModelType` and the spec's
`ModelFamily`.  The code's `'gpt-4o'` and `'legacy'` types are both the
spec's standard family: `DEFAULT_PARAMETERS` gives them identical parameter
shapes and `createAPIParameterConfig` treats the two cases by one shared
branch (see `createAPIParameterConfig_legacy_eq_gpt4o` below); `'gpt-5'`
uses `max_completion_tokens` and an optional response format, the spec's
extended-context family; `'o-series'` is the reasoning family. -/
def modelFamilyOfType : ModelType → ModelFamily
  | ModelType.gpt4o => ModelFamily.standard
  | ModelType.legacy => ModelFamily.standard
  | ModelType.gpt5 => ModelFamily.extendedContext
  | ModelType.oSeries => ModelFamily.reasoning

/-- Classification of a model name into the spec's family vocabulary. -/
def modelFamily (modelName : String) : ModelFamily :=
  modelFamilyOfType (getModelType modelName)

/-- Parameter record for the `'gpt-4o'` and `'legacy'` types
(`StandardModelParameters` in `src/types.ts`). -/
structure StandardModelParameters where
  temperature : ℚ
  maxTokens : ℚ
  topP : ℚ
  frequencyPenalty : ℚ
  presencePenalty : ℚ

/-- Parameter record for the `'gpt-5'` type (`GPT5ModelParameters`): the
`responseFormat` field is the `type` tag of the response-format object. -/
structure GPT5ModelParameters where
  temperature : ℚ
  maxCompletionTokens : ℚ
  topP : ℚ
  frequencyPenalty : ℚ
  presencePenalty : ℚ
  responseFormat : String

/-- Parameter record for the `'o-series'` type
(`ReasoningModelParameters`). -/
structure ReasoningModelParameters where
  temperature : ℚ
  maxOutputTokens : ℚ
  reasoningEffort : String
  reasoningStrategy : String

/-- The union `StandardModelParameters | GPT5ModelParameters |
ReasoningModelParameters` of `ModelParameterConfig.parameters`. -/
inductive ModelParameters where
  | standard (p : StandardModelParameters)
  | gpt5 (p : GPT5ModelParameters)
  | reasoning (p : ReasoningModelParameters)

/-- Field read `parameters.temperature` (present on every variant of the
union). -/
def ModelParameters.temperatureField : ModelParameters → Option ℚ
  | ModelParameters.standard p => some p.temperature
  | ModelParameters.gpt5 p => some p.temperature
  | ModelParameters.reasoning p => some p.temperature

/-- Field read `parameters.topP` (`undefined` on the reasoning variant). -/
def ModelParameters.topPField : ModelParameters → Option ℚ
  | ModelParameters.standard p => some p.topP
  | ModelParameters.gpt5 p => some p.topP
  | ModelParameters.reasoning _ => none

/-- Field read `parameters.frequencyPenalty`. -/
def ModelParameters.frequencyPenaltyField : ModelParameters → Option ℚ
  | ModelParameters.standard p => some p.frequencyPenalty
  | ModelParameters.gpt5 p => some p.frequencyPenalty
  | ModelParameters.reasoning _ => none

/-- Field read `parameters.presencePenalty`. -/
def ModelParameters.presencePenaltyField : ModelParameters → Option ℚ
  | ModelParameters.standard p => some p.presencePenalty
  | ModelParameters.gpt5 p => some p.presencePenalty
  | ModelParameters.reasoning _ => none

/-- Field read `parameters.maxTokens` (the `as StandardModelParameters`
cast does not change the runtime value; a mismatched variant reads
`undefined`). -/
def ModelParameters.maxTokensField : ModelParameters → Option ℚ
  | ModelParameters.standard p => some p.maxTokens
  | _ => none

/-- Field read `parameters.maxCompletionTokens`. -/
def ModelParameters.maxCompletionTokensField : ModelParameters → Option ℚ
  | ModelParameters.gpt5 p => some p.maxCompletionTokens
  | _ => none

/-- Field read `parameters.maxOutputTokens`. -/
def ModelParameters.maxOutputTokensField : ModelParameters → Option ℚ
  | ModelParameters.reasoning p => some p.maxOutputTokens
  | _ => none

/-- Field read `parameters.reasoningEffort`. -/
def ModelParameters.reasoningEffortField : ModelParameters → Option String
  | ModelParameters.reasoning p => some p.reasoningEffort
  | _ => none

/-- Field read `parameters.responseFormat`. -/
def ModelParameters.responseFormatField : ModelParameters → Option String
  | ModelParameters.gpt5 p => some p.responseFormat
  | _ => none

/-- The `ModelParameterConfig` record of `src/types.ts`. -/
structure ModelParameterConfig where
  modelType : ModelType
  parameters : ModelParameters

/-- Value of one key in the wire-parameter object returned by
`createAPIParameterConfig`; `undef` models a key whose value is
`undefined` (dropped by `JSON.stringify` on transmission). -/
inductive WireValue where
  | num (q : ℚ)
  | str (s : String)
  | obj (fields : List (String × WireValue))
  | undef

/-- Wrap an optional numeric field value. -/
def wireNum : Option ℚ → WireValue
  | some q => WireValue.num q
  | none => WireValue.undef

/-- Wrap an optional string field value. -/
def wireStr : Option String → WireValue
  | some s => WireValue.str s
  | none => WireValue.undef

/-- Wrap an optional response-format value (an object with a `type` tag). -/
def wireFmt : Option String → WireValue
  | some t => WireValue.obj [("type", WireValue.str t)]
  | none => WireValue.undef

/-- Key lookup in a wire-parameter object. -/
def wireLookup : List (String × WireValue) → String → Option WireValue
  | [], _ => none
  | (k', v) :: rest, k => if k' = k then some v else wireLookup rest k

/-- Embedding of `createAPIParameterConfig` from
`src/utils/modelParameterUtils.ts`: build the sampling base config, then per
model type either extend it with the type's token-limit key or (for
`'o-series'`) return a fresh object carrying only `max_output_tokens` and
the nested `reasoning.effort`, never the sampling keys. -/
def createAPIParameterConfig (config : ModelParameterConfig) : List (String × WireValue) :=
  let parameters := config.parameters
  let baseConfig : List (String × WireValue) :=
    [("temperature", wireNum parameters.temperatureField),
     ("top_p", wireNum parameters.topPField),
     ("frequency_penalty", wireNum parameters.frequencyPenaltyField),
     ("presence_penalty", wireNum parameters.presencePenaltyField)]
  match config.modelType with
  | ModelType.gpt4o =>
    baseConfig ++ [("max_tokens", wireNum parameters.maxTokensField)]
  | ModelType.legacy =>
    baseConfig ++ [("max_tokens", wireNum parameters.maxTokensField)]
  | ModelType.gpt5 =>
    baseConfig ++
      [("max_completion_tokens", wireNum parameters.maxCompletionTokensField),
       ("response_format", wireFmt parameters.responseFormatField)]
  | ModelType.oSeries =>
    [("max_output_tokens", wireNum parameters.maxOutputTokensField),
     ("reasoning", WireValue.obj [("effort", wireStr parameters.reasoningEffortField)])]

/-- The `'gpt-4o'` and `'legacy'` switch cases of `createAPIParameterConfig`
share one fall-through body, so the two types produce identical wire
parameters — the sense in which the code's `'legacy'` fallback type is the
spec's standard family. -/
theorem createAPIParameterConfig_legacy_eq_gpt4o (p : ModelParameters) :
    createAPIParameterConfig { modelType := ModelType.legacy, parameters := p }
      = createAPIParameterConfig { modelType := ModelType.gpt4o, parameters := p } := rfl

/-- Providers of `src/types.ts`. -/
inductive Provider where
  | google
  | openai
  | azureOpenai
  | bedrockOpenai
  deriving DecidableEq

/-- Characters removed by JavaScript `String.prototype.trim` (the common
ASCII whitespace set; JS additionally trims some exotic Unicode spaces
never present in credentials). -/
def jsTrimWs (c : Char) : Bool :=
  c = ' ' || c = '\t' || c = '\n' || c = '\r' || c = '\x0b' || c = '\x0c'

/-- JavaScript `apiKey.trim()`. -/
def jsTrim (s : String) : String :=
  String.mk (((s.data.dropWhile jsTrimWs).reverse.dropWhile jsTrimWs).reverse)

/-- Case-insensitive hexadecimal digit, as matched by `[a-f0-9]` under the
`i` flag. -/
def isHexDigitCI (c : Char) : Bool :=
  c.isDigit || ('a' ≤ c && c ≤ 'f') || ('A' ≤ c && c ≤ 'F')

/-- Modelled from the spec: the Bedrock credential check calls the platform
URL parser (`new URL(sanitizedKey)`), which is not part of this repository;
spec §4.1 describes it as "validated as a well-formed URL".  Approximated
as: an ASCII-alphabetic scheme character, followed by scheme characters, a
colon, and anything after it. -/
def isWellFormedUrl (s : String) : Bool :=
  match s.data with
  | c :: rest =>
    c.isAlpha && (rest.dropWhile
      (fun d => d.isAlpha || d.isDigit || d = '+' || d = '-' || d = '.')).head? = some ':'
  | [] => false

/-- Embedding of `validateApiKey` from `src/utils/apiKeyUtils.ts`: reject
empty or whitespace-only keys, then apply the provider-specific format
check to the trimmed key. -/
def validateApiKey (provider : Provider) (apiKey : String) : Bool :=
  if apiKey = "" then false
  else
    let sanitizedKey := jsTrim apiKey
    if sanitizedKey.length = 0 then false
    else
      match provider with
      | Provider.google =>
        strStartsWith sanitizedKey "AIza" && sanitizedKey.length == 39
      | Provider.openai =>
        (strStartsWith sanitizedKey "sk-" || strStartsWith sanitizedKey "sk-proj-")
          && decide (20 ≤ sanitizedKey.length)
      | Provider.azureOpenai =>
        sanitizedKey.length == 32 && sanitizedKey.data.all isHexDigitCI
      | Provider.bedrockOpenai =>
        isWellFormedUrl sanitizedKey

/-- Deployment-level defaults (the `import.meta.env.VITE_*` variables read
by `getEffectiveApiKey`); `none` models an unset variable. -/
structure EnvKeys where
  googleApiKey : Option String
  openaiApiKey : Option String
  azureOpenaiApiKey : Option String
  bedrockProxyUrl : Option String

/-- The per-provider environment fallback switch of `getEffectiveApiKey`. -/
def envFallback (env : EnvKeys) : Provider → Option String
  | Provider.google => env.googleApiKey
  | Provider.openai => env.openaiApiKey
  | Provider.azureOpenai => env.azureOpenaiApiKey
  | Provider.bedrockOpenai => env.bedrockProxyUrl

/-- Embedding of `getEffectiveApiKey` from `src/utils/apiKeyUtils.ts`:
return the user-provided key when it is truthy, non-blank after trimming
and passes `validateApiKey`; otherwise fall back to the deployment
default. -/
def getEffectiveApiKey (env : EnvKeys) (provider : Provider)
    (configApiKey : Option String) : Option String :=
  match configApiKey with
  | some k =>
    if k ≠ "" ∧ (jsTrim k).length ≠ 0 ∧ validateApiKey provider k = true then some k
    else envFallback env provider
  | none => envFallback env provider

theorem clamp01_nonneg (q : ℚ) : 0 ≤ clamp01 q := le_max_left 0 _

theorem clamp01_le_one (q : ℚ) : clamp01 q ≤ 1 :=
  max_le (by norm_num) (min_le_left 1 q)

theorem clamp01_of_unit {q : ℚ} (h0 : 0 ≤ q) (h1 : q ≤ 1) : clamp01 q = q := by
  unfold clamp01
  rw [min_eq_right h1, max_eq_right h0]

theorem numClamp_nonneg (v : Option Json) {d : ℚ} (hd : 0 ≤ d) : 0 ≤ numClamp v d := by
  unfold numClamp
  cases v with
  | none => exact hd
  | some j => cases j <;> first | exact hd | exact clamp01_nonneg _

theorem numClamp_le_one (v : Option Json) {d : ℚ} (hd : d ≤ 1) : numClamp v d ≤ 1 := by
  unfold numClamp
  cases v with
  | none => exact hd
  | some j => cases j <;> first | exact hd | exact clamp01_le_one _

theorem numClamp_stable (v : Option Json) (d d' : ℚ) (h0 : 0 ≤ d) (h1 : d ≤ 1) :
    numClamp (some (Json.num (numClamp v d))) d' = numClamp v d := by
  show clamp01 (numClamp v d) = numClamp v d
  exact clamp01_of_unit (numClamp_nonneg v h0) (numClamp_le_one v h1)

theorem orDefault_stable (v : Option Json) {d : String} (hd : d ≠ "") :
    orDefault (some (orDefault v d)) d = orDefault v d := by
  cases v with
  | none => simp [orDefault, truthy, hd]
  | some j =>
    cases ht : truthy j with
    | true => simp [orDefault, ht]
    | false =>
      have h1 : orDefault (some j) d = Json.str d := by simp [orDefault, ht]
      rw [h1]
      simp [orDefault, truthy, hd]

theorem orNull_stable (v : Option Json) : orNull (some (orNull v)) = orNull v := by
  cases v with
  | none => simp [orNull, truthy]
  | some j =>
    cases ht : truthy j with
    | true => simp [orNull, ht]
    | false =>
      have h1 : orNull (some j) = Json.null := by simp [orNull, ht]
      rw [h1]
      simp [orNull, truthy]

theorem hasStr_snoc_self (xs : List Json) (s : String) :
    hasStr (xs ++ [Json.str s]) s = true := by
  induction xs with
  | nil => simp [hasStr]
  | cons x xs ih =>
    cases x with
    | str t => by_cases h : t = s <;> simp [hasStr, h] <;> exact ih
    | null => exact ih
    | bool b => exact ih
    | num q => exact ih
    | arr es => exact ih
    | obj fs => exact ih

theorem hasStr_push_self (xs : List Json) (s : String) :
    hasStr (pushIfMissing xs s) s = true := by
  unfold pushIfMissing
  cases h : hasStr xs s with
  | true => simp [h]
  | false => simp [h, hasStr_snoc_self]

theorem pushIfMissing_of_has {xs : List Json} {s : String} (h : hasStr xs s = true) :
    pushIfMissing xs s = xs := by
  simp [pushIfMissing, h]

theorem pushIfMissing_idem (xs : List Json) (s : String) :
    pushIfMissing (pushIfMissing xs s) s = pushIfMissing xs s :=
  pushIfMissing_of_has (hasStr_push_self xs s)

theorem countStr_snoc_self (xs : List Json) (s : String) :
    countStr (xs ++ [Json.str s]) s = countStr xs s + 1 := by
  induction xs with
  | nil => simp [countStr]
  | cons x xs ih =>
    cases x with
    | str t =>
      show (if t = s then 1 else 0) + countStr (xs ++ [Json.str s]) s = _
      rw [ih]
      show _ = (if t = s then 1 else 0) + countStr xs s + 1
      omega
    | null => exact ih
    | bool b => exact ih
    | num q => exact ih
    | arr es => exact ih
    | obj fs => exact ih

theorem countStr_zero_of_not_has {xs : List Json} {s : String} (h : hasStr xs s = false) :
    countStr xs s = 0 := by
  induction xs with
  | nil => rfl
  | cons x xs ih =>
    cases x with
    | str t =>
      by_cases ht : t = s
      · simp [hasStr, ht] at h
      · have h' : hasStr xs s = false := by simpa [hasStr, ht] using h
        show (if t = s then 1 else 0) + countStr xs s = 0
        simp [ht, ih h']
    | null => exact ih h
    | bool b => exact ih h
    | num q => exact ih h
    | arr es => exact ih h
    | obj fs => exact ih h

theorem countStr_push_fresh {xs : List Json} {s : String} (h : hasStr xs s = false) :
    countStr (pushIfMissing xs s) s = 1 := by
  simp [pushIfMissing, h, countStr_snoc_self, countStr_zero_of_not_has h]

theorem isStr_eq {v : Option Json} {s : String} (h : isStr v s = true) :
    v = some (Json.str s) := by
  cases v with
  | none => simp [isStr] at h
  | some j =>
    cases j <;> simp [isStr] at h
    case str t => simp [h]

theorem enumFix_mem (a : Option Json) : enumFix a ∈ assessmentEnum := by
  have hM : ("MANUAL_REVIEW" : String) ∈ assessmentEnum := by decide
  cases a with
  | none => exact hM
  | some j =>
    cases j with
    | str s =>
      by_cases h : s ∈ assessmentEnum
      · simp only [enumFix, if_pos h]
        exact h
      · simp only [enumFix, if_neg h]
        exact hM
    | null => exact hM
    | bool b => exact hM
    | num q => exact hM
    | arr es => exact hM
    | obj fs => exact hM

theorem enumFix_str_of_mem {s : String} (h : s ∈ assessmentEnum) :
    enumFix (some (Json.str s)) = s := by
  simp [enumFix, h]

theorem enumFix_stable (a : Option Json) :
    enumFix (some (Json.str (enumFix a))) = enumFix a :=
  enumFix_str_of_mem (enumFix_mem a)

theorem enumFix_of_not_aut_sus_tam {a : Option Json}
    (h1 : isStr a "SUSPICIOUS_ANOMALIES_DETECTED" = false)
    (h2 : isStr a "LIKELY_TAMPERED" = false)
    (h3 : isStr a "LIKELY_AUTHENTIC" = false) :
    enumFix a = "MANUAL_REVIEW" := by
  cases a with
  | none => rfl
  | some j =>
    cases j <;> try rfl
    case str s =>
      simp only [isStr, decide_eq_false_iff_not] at h1 h2 h3
      by_cases hm : s ∈ assessmentEnum
      · have hm' := hm
        simp only [assessmentEnum] at hm'
        simp only [List.mem_cons, List.not_mem_nil, or_false] at hm'
        rcases hm' with h | h | h | h
        · exact absurd h h3
        · exact absurd h h1
        · exact absurd h h2
        · rw [h]
          rfl
      · simp [enumFix, hm]

theorem enumFix_of_not_sus_tam {a : Option Json}
    (h1 : isStr a "SUSPICIOUS_ANOMALIES_DETECTED" = false)
    (h2 : isStr a "LIKELY_TAMPERED" = false) :
    enumFix a = "LIKELY_AUTHENTIC" ∨ enumFix a = "MANUAL_REVIEW" := by
  cases h3 : isStr a "LIKELY_AUTHENTIC" with
  | true => exact Or.inl (by rw [isStr_eq h3]; rfl)
  | false => exact Or.inr (enumFix_of_not_aut_sus_tam h1 h2 h3)

theorem isStr_of_eq_ne {a0 : Option Json} {s : String} (t : String)
    (hs : isStr a0 s = true) (hne : s ≠ t) : isStr a0 t = false := by
  rw [isStr_eq hs]
  simp [isStr, hne]

theorem consistencyStep_low {c : ℚ} (hc : c < Rat.divInt 2 5) (a0 : Option Json)
    (rs : List Json) (n : Nat) :
    consistencyStep c a0 rs n
      = (some (Json.str "MANUAL_REVIEW"), pushIfMissing rs lowConfidenceReason) := by
  simp [consistencyStep, hc]

theorem consistencyStep_mid_st {c : ℚ} (h1 : Rat.divInt 2 5 ≤ c) (h2 : c < Rat.divInt 7 10)
    {a0 : Option Json}
    (hst : (isStr a0 "SUSPICIOUS_ANOMALIES_DETECTED" || isStr a0 "LIKELY_TAMPERED") = true)
    (rs : List Json) (n : Nat) :
    consistencyStep c a0 rs n = (a0, rs) := by
  have hnc : ¬ c < Rat.divInt 2 5 := not_lt.2 h1
  simp [consistencyStep, hnc, h1, h2, hst]

theorem consistencyStep_mid_auth {c : ℚ} (h1 : Rat.divInt 2 5 ≤ c)
    (h2 : c < Rat.divInt 7 10) {a0 : Option Json}
    (hS : isStr a0 "SUSPICIOUS_ANOMALIES_DETECTED" = false)
    (hT : isStr a0 "LIKELY_TAMPERED" = false)
    (hA : isStr a0 "LIKELY_AUTHENTIC" = true) (rs : List Json) (n : Nat) :
    consistencyStep c a0 rs n
      = (some (Json.str "MANUAL_REVIEW"), pushIfMissing rs moderateConfidenceReason) := by
  have hnc : ¬ c < Rat.divInt 2 5 := not_lt.2 h1
  simp [consistencyStep, hnc, h1, h2, hS, hT, hA]

theorem consistencyStep_mid_other {c : ℚ} (h1 : Rat.divInt 2 5 ≤ c)
    (h2 : c < Rat.divInt 7 10) {a0 : Option Json}
    (hS : isStr a0 "SUSPICIOUS_ANOMALIES_DETECTED" = false)
    (hT : isStr a0 "LIKELY_TAMPERED" = false)
    (hA : isStr a0 "LIKELY_AUTHENTIC" = false) (rs : List Json) (n : Nat) :
    consistencyStep c a0 rs n = (a0, rs) := by
  have hnc : ¬ c < Rat.divInt 2 5 := not_lt.2 h1
  simp [consistencyStep, hnc, h1, h2, hS, hT, hA]

theorem consistencyStep_high_tam_low {c : ℚ} (h7 : Rat.divInt 7 10 ≤ c)
    {a0 : Option Json} (hT : isStr a0 "LIKELY_TAMPERED" = true)
    (rs : List Json) {n : Nat} (hn : n < 2) :
    consistencyStep c a0 rs n = (some (Json.str "SUSPICIOUS_ANOMALIES_DETECTED"), rs) := by
  have h1 : Rat.divInt 2 5 ≤ c :=
    le_trans (by decide : Rat.divInt 2 5 ≤ Rat.divInt 7 10) h7
  have hnc : ¬ c < Rat.divInt 2 5 := not_lt.2 h1
  have hn7 : ¬ c < Rat.divInt 7 10 := not_lt.2 h7
  simp [consistencyStep, hnc, hn7, h7, hT, hn]

theorem consistencyStep_high_tam_ge {c : ℚ} (h7 : Rat.divInt 7 10 ≤ c)
    {a0 : Option Json} (hT : isStr a0 "LIKELY_TAMPERED" = true)
    (rs : List Json) {n : Nat} (hn : ¬ n < 2) :
    consistencyStep c a0 rs n = (a0, rs) := by
  have h1 : Rat.divInt 2 5 ≤ c :=
    le_trans (by decide : Rat.divInt 2 5 ≤ Rat.divInt 7 10) h7
  have hnc : ¬ c < Rat.divInt 2 5 := not_lt.2 h1
  have hn7 : ¬ c < Rat.divInt 7 10 := not_lt.2 h7
  simp [consistencyStep, hnc, hn7, h7, hT, hn]

theorem consistencyStep_high_sus {c : ℚ} (h7 : Rat.divInt 7 10 ≤ c)
    {a0 : Option Json} (hS : isStr a0 "SUSPICIOUS_ANOMALIES_DETECTED" = true)
    (rs : List Json) (n : Nat) :
    consistencyStep c a0 rs n = (a0, rs) := by
  have hT : isStr a0 "LIKELY_TAMPERED" = false :=
    isStr_of_eq_ne "LIKELY_TAMPERED" hS (by decide)
  have h1 : Rat.divInt 2 5 ≤ c :=
    le_trans (by decide : Rat.divInt 2 5 ≤ Rat.divInt 7 10) h7
  have hnc : ¬ c < Rat.divInt 2 5 := not_lt.2 h1
  have hn7 : ¬ c < Rat.divInt 7 10 := not_lt.2 h7
  simp [consistencyStep, hnc, hn7, h7, hS, hT]

theorem consistencyStep_high_other {c : ℚ} (h7 : Rat.divInt 7 10 ≤ c)
    {a0 : Option Json}
    (hS : isStr a0 "SUSPICIOUS_ANOMALIES_DETECTED" = false)
    (hT : isStr a0 "LIKELY_TAMPERED" = false)
    (rs : List Json) (n : Nat) :
    consistencyStep c a0 rs n = (a0, rs) := by
  have h1 : Rat.divInt 2 5 ≤ c :=
    le_trans (by decide : Rat.divInt 2 5 ≤ Rat.divInt 7 10) h7
  have hnc : ¬ c < Rat.divInt 2 5 := not_lt.2 h1
  have hn7 : ¬ c < Rat.divInt 7 10 := not_lt.2 h7
  simp [consistencyStep, hnc, hn7, h7, hS, hT]

theorem consistencyStep_stable (c : ℚ) (a0 : Option Json) (rs : List Json) (n : Nat) :
    consistencyStep c (some (Json.str (enumFix (consistencyStep c a0 rs n).1)))
        (consistencyStep c a0 rs n).2 n
      = (some (Json.str (enumFix (consistencyStep c a0 rs n).1)),
         (consistencyStep c a0 rs n).2) := by
  have eM : enumFix (some (Json.str "MANUAL_REVIEW")) = "MANUAL_REVIEW" := rfl
  have eS : enumFix (some (Json.str "SUSPICIOUS_ANOMALIES_DETECTED"))
      = "SUSPICIOUS_ANOMALIES_DETECTED" := rfl
  have eT : enumFix (some (Json.str "LIKELY_TAMPERED")) = "LIKELY_TAMPERED" := rfl
  rcases lt_or_le c (Rat.divInt 2 5) with h1 | h1
  · have hfix : consistencyStep c a0 rs n
        = (some (Json.str "MANUAL_REVIEW"), pushIfMissing rs lowConfidenceReason) :=
      consistencyStep_low h1 a0 rs n
    rw [hfix]
    show consistencyStep c (some (Json.str (enumFix (some (Json.str "MANUAL_REVIEW")))))
        (pushIfMissing rs lowConfidenceReason) n = _
    rw [eM, consistencyStep_low h1, pushIfMissing_idem]
  · rcases lt_or_le c (Rat.divInt 7 10) with h2 | h2
    · cases hS : isStr a0 "SUSPICIOUS_ANOMALIES_DETECTED" with
      | true =>
        rw [isStr_eq hS]
        have hfix : consistencyStep c (some (Json.str "SUSPICIOUS_ANOMALIES_DETECTED")) rs n
            = (some (Json.str "SUSPICIOUS_ANOMALIES_DETECTED"), rs) :=
          consistencyStep_mid_st h1 h2 (by decide) rs n
        rw [hfix]
        show consistencyStep c
            (some (Json.str (enumFix (some (Json.str "SUSPICIOUS_ANOMALIES_DETECTED"))))) rs n = _
        rw [eS]
        exact hfix
      | false =>
        cases hT : isStr a0 "LIKELY_TAMPERED" with
        | true =>
          rw [isStr_eq hT]
          have hfix : consistencyStep c (some (Json.str "LIKELY_TAMPERED")) rs n
              = (some (Json.str "LIKELY_TAMPERED"), rs) :=
            consistencyStep_mid_st h1 h2 (by decide) rs n
          rw [hfix]
          show consistencyStep c
              (some (Json.str (enumFix (some (Json.str "LIKELY_TAMPERED"))))) rs n = _
          rw [eT]
          exact hfix
        | false =>
          cases hA : isStr a0 "LIKELY_AUTHENTIC" with
          | true =>
            rw [isStr_eq hA]
            have hfix : consistencyStep c (some (Json.str "LIKELY_AUTHENTIC")) rs n
                = (some (Json.str "MANUAL_REVIEW"),
                   pushIfMissing rs moderateConfidenceReason) :=
              consistencyStep_mid_auth h1 h2 (by decide) (by decide) (by decide) rs n
            rw [hfix]
            show consistencyStep c
                (some (Json.str (enumFix (some (Json.str "MANUAL_REVIEW")))))
                (pushIfMissing rs moderateConfidenceReason) n = _
            rw [eM]
            exact consistencyStep_mid_other h1 h2 (by decide) (by decide) (by decide) _ n
          | false =>
            have hfixa : enumFix a0 = "MANUAL_REVIEW" := enumFix_of_not_aut_sus_tam hS hT hA
            have hfix : consistencyStep c a0 rs n = (a0, rs) :=
              consistencyStep_mid_other h1 h2 hS hT hA rs n
            rw [hfix]
            show consistencyStep c (some (Json.str (enumFix a0))) rs n
                = (some (Json.str (enumFix a0)), rs)
            rw [hfixa]
            exact consistencyStep_mid_other h1 h2 (by decide) (by decide) (by decide) rs n
    · cases hT : isStr a0 "LIKELY_TAMPERED" with
      | true =>
        rw [isStr_eq hT]
        by_cases hn : n < 2
        · have hfix : consistencyStep c (some (Json.str "LIKELY_TAMPERED")) rs n
              = (some (Json.str "SUSPICIOUS_ANOMALIES_DETECTED"), rs) :=
            consistencyStep_high_tam_low h2 (by decide) rs hn
          rw [hfix]
          show consistencyStep c
              (some (Json.str (enumFix (some (Json.str "SUSPICIOUS_ANOMALIES_DETECTED"))))) rs n = _
          rw [eS]
          exact consistencyStep_high_sus h2 (by decide) rs n
        · have hfix : consistencyStep c (some (Json.str "LIKELY_TAMPERED")) rs n
              = (some (Json.str "LIKELY_TAMPERED"), rs) :=
            consistencyStep_high_tam_ge h2 (by decide) rs hn
          rw [hfix]
          show consistencyStep c
              (some (Json.str (enumFix (some (Json.str "LIKELY_TAMPERED"))))) rs n = _
          rw [eT]
          exact hfix
      | false =>
        cases hS : isStr a0 "SUSPICIOUS_ANOMALIES_DETECTED" with
        | true =>
          rw [isStr_eq hS]
          have hfix : consistencyStep c (some (Json.str "SUSPICIOUS_ANOMALIES_DETECTED")) rs n
              = (some (Json.str "SUSPICIOUS_ANOMALIES_DETECTED"), rs) :=
            consistencyStep_high_sus h2 (by decide) rs n
          rw [hfix]
          show consistencyStep c
              (some (Json.str (enumFix (some (Json.str "SUSPICIOUS_ANOMALIES_DETECTED"))))) rs n = _
          rw [eS]
          exact hfix
        | false =>
          have hfix : consistencyStep c a0 rs n = (a0, rs) :=
            consistencyStep_high_other h2 hS hT rs n
          rw [hfix]
          show consistencyStep c (some (Json.str (enumFix a0))) rs n
              = (some (Json.str (enumFix a0)), rs)
          rcases enumFix_of_not_sus_tam hS hT with he | he <;> rw [he]
          · exact consistencyStep_high_other h2 (by decide) (by decide) rs n
          · exact consistencyStep_high_other h2 (by decide) (by decide) rs n

attribute [ext] Region DetailedFinding AnalysisResult

theorem sevFix_mem (v : Option Json) : sevFix v ∈ severityEnum := by
  have hL : ("Low" : String) ∈ severityEnum := by decide
  cases v with
  | none => exact hL
  | some j =>
    cases j with
    | str s =>
      by_cases h : s ∈ severityEnum
      · simp only [sevFix, if_pos h]
        exact h
      · simp only [sevFix, if_neg h]
        exact hL
    | null => exact hL
    | bool b => exact hL
    | num q => exact hL
    | arr es => exact hL
    | obj fs => exact hL

theorem sevFix_str_of_mem {s : String} (h : s ∈ severityEnum) :
    sevFix (some (Json.str s)) = s := by
  simp [sevFix, h]

theorem sevFix_stable (v : Option Json) :
    sevFix (some (Json.str (sevFix v))) = sevFix v :=
  sevFix_str_of_mem (sevFix_mem v)

theorem artFix_mem (v : Option Json) : artFix v ∈ artifactTypeEnum := by
  have hO : ("OTHER" : String) ∈ artifactTypeEnum := by decide
  cases v with
  | none => exact hO
  | some j =>
    cases j with
    | str s =>
      by_cases h : s ∈ artifactTypeEnum
      · simp only [artFix, if_pos h]
        exact h
      · simp only [artFix, if_neg h]
        exact hO
    | null => exact hO
    | bool b => exact hO
    | num q => exact hO
    | arr es => exact hO
    | obj fs => exact hO

theorem artFix_str_of_mem {s : String} (h : s ∈ artifactTypeEnum) :
    artFix (some (Json.str s)) = s := by
  simp [artFix, h]

theorem artFix_stable (v : Option Json) :
    artFix (some (Json.str (artFix v))) = artFix v :=
  artFix_str_of_mem (artFix_mem v)

theorem sevFix_isStr_high (v : Option Json) :
    isStr (some (Json.str (sevFix v))) "High" = isStr v "High" := by
  cases v with
  | none => rfl
  | some j =>
    cases j with
    | str s =>
      by_cases h : s ∈ severityEnum
      · rw [sevFix_str_of_mem h]
      · have hs : s ≠ "High" := by
          intro he
          rw [he] at h
          exact h (by decide)
        have h1 : sevFix (some (Json.str s)) = "Low" := by simp [sevFix, h]
        rw [h1]
        simp [isStr, hs]
    | null => rfl
    | bool b => rfl
    | num q => rfl
    | arr es => rfl
    | obj fs => rfl

theorem length_filter_map {α β : Type} (f : α → β) (p : β → Bool) (l : List α) :
    ((l.map f).filter p).length = (l.filter (fun a => p (f a))).length := by
  induction l with
  | nil => rfl
  | cons a l ih =>
    simp only [List.map_cons, List.filter_cons]
    cases h : p (f a) with
    | true => simp [ih]
    | false => simp [ih]

theorem fixFinding_stable (j : Json) :
    fixFinding (findingToJson (fixFinding j)) = fixFinding j := by
  apply DetailedFinding.ext
  · exact orDefault_stable _ (by decide)
  · exact orDefault_stable _ (by decide)
  · exact sevFix_stable _
  · exact artFix_stable _
  · apply Region.ext
    · exact numClamp_stable (getField2 j "region" "x") 0 0 (by norm_num) (by norm_num)
    · exact numClamp_stable (getField2 j "region" "y") 0 0 (by norm_num) (by norm_num)
    · exact numClamp_stable (getField2 j "region" "width") (Rat.divInt 1 10)
        (Rat.divInt 1 10) (by decide) (by decide)
    · exact numClamp_stable (getField2 j "region" "height") (Rat.divInt 1 10)
        (Rat.divInt 1 10) (by decide) (by decide)
  · exact numClamp_stable (getField j "evidenceStrength") (Rat.divInt 1 2)
      (Rat.divInt 1 2) (by decide) (by decide)
  · rfl
  · rfl
  · exact orNull_stable _
  · exact orNull_stable _
  · rfl
  · rfl

theorem clampedConfidence_stable (response : Json) :
    clampedConfidence (analysisResultToJson (validateAndFixResponse response))
      = clampedConfidence response := by
  show clamp01 (clampedConfidence response) = clampedConfidence response
  exact clamp01_of_unit (numClamp_nonneg _ (by decide)) (numClamp_le_one _ (by decide))

theorem highSeverityCount_stable (response : Json) :
    highSeverityCount (analysisResultToJson (validateAndFixResponse response))
      = highSeverityCount response := by
  show ((((asArr (getField response "detailedFindings")).map fixFinding).map findingToJson).filter
      (fun f => isStr (getField f "severity") "High")).length = highSeverityCount response
  rw [length_filter_map, length_filter_map]
  unfold highSeverityCount
  congr 1
  apply List.filter_congr
  intro f _
  exact sevFix_isStr_high (getField f "severity")

theorem validateAndFixResponse_idem (response : Json) :
    validateAndFixResponse (analysisResultToJson (validateAndFixResponse response))
      = validateAndFixResponse response := by
  apply AnalysisResult.ext
  · exact orDefault_stable (getField response "analysisLog") (by decide)
  · show enumFix (consistencyStep
        (clampedConfidence (analysisResultToJson (validateAndFixResponse response)))
        (some (Json.str (enumFix (consistencyStep (clampedConfidence response)
          (getField response "overallAssessment")
          (asArr (getField response "abstainedReasons")) (highSeverityCount response)).1)))
        (consistencyStep (clampedConfidence response)
          (getField response "overallAssessment")
          (asArr (getField response "abstainedReasons")) (highSeverityCount response)).2
        (highSeverityCount (analysisResultToJson (validateAndFixResponse response)))).1
      = enumFix (consistencyStep (clampedConfidence response)
          (getField response "overallAssessment")
          (asArr (getField response "abstainedReasons")) (highSeverityCount response)).1
    rw [clampedConfidence_stable, highSeverityCount_stable, consistencyStep_stable]
    exact enumFix_stable _
  · exact clampedConfidence_stable response
  · exact orDefault_stable (getField response "summary") (by decide)
  · exact orDefault_stable (getField response "technicalSummary") (by decide)
  · show (((asArr (getField response "detailedFindings")).map fixFinding).map
        findingToJson).map fixFinding
      = (asArr (getField response "detailedFindings")).map fixFinding
    rw [List.map_map, List.map_map]
    have hfun : (fixFinding ∘ findingToJson) ∘ fixFinding = fixFinding :=
      funext fun j => fixFinding_stable j
    rw [hfun]
  · exact orDefault_stable (getField response "coverageNotes") (by decide)
  · exact numClamp_stable (getField response "imageQualityScore") (Rat.divInt 7 10)
      (Rat.divInt 7 10) (by decide) (by decide)
  · show (consistencyStep
        (clampedConfidence (analysisResultToJson (validateAndFixResponse response)))
        (some (Json.str (enumFix (consistencyStep (clampedConfidence response)
          (getField response "overallAssessment")
          (asArr (getField response "abstainedReasons")) (highSeverityCount response)).1)))
        (consistencyStep (clampedConfidence response)
          (getField response "overallAssessment")
          (asArr (getField response "abstainedReasons")) (highSeverityCount response)).2
        (highSeverityCount (analysisResultToJson (validateAndFixResponse response)))).2
      = (consistencyStep (clampedConfidence response)
          (getField response "overallAssessment")
          (asArr (getField response "abstainedReasons")) (highSeverityCount response)).2
    rw [clampedConfidence_stable, highSeverityCount_stable, consistencyStep_stable]
  · exact orDefault_stable (getField response "promptVersion") (by decide)

theorem vfr_overallAssessment_eq (response : Json) :
    (validateAndFixResponse response).overallAssessment
      = enumFix (consistencyStep (clampedConfidence response)
          (getField response "overallAssessment")
          (asArr (getField response "abstainedReasons"))
          (highSeverityCount response)).1 := rfl

theorem vfr_abstainedReasons_eq (response : Json) :
    (validateAndFixResponse response).abstainedReasons
      = (consistencyStep (clampedConfidence response)
          (getField response "overallAssessment")
          (asArr (getField response "abstainedReasons"))
          (highSeverityCount response)).2 := rfl

theorem vfr_confidenceScore_eq (response : Json) :
    (validateAndFixResponse response).confidenceScore = clampedConfidence response := rfl

theorem midband_not_auth {c : ℚ} (a0 : Option Json) (rs : List Json) (n : Nat)
    (h1 : Rat.divInt 2 5 ≤ c) (h2 : c < Rat.divInt 7 10) :
    enumFix (consistencyStep c a0 rs n).1 ≠ "LIKELY_AUTHENTIC" := by
  cases hS : isStr a0 "SUSPICIOUS_ANOMALIES_DETECTED" with
  | true =>
    have ha := isStr_eq hS
    subst ha
    rw [consistencyStep_mid_st h1 h2 (by decide) rs n]
    show enumFix (some (Json.str "SUSPICIOUS_ANOMALIES_DETECTED")) ≠ "LIKELY_AUTHENTIC"
    decide
  | false =>
    cases hT : isStr a0 "LIKELY_TAMPERED" with
    | true =>
      have ha := isStr_eq hT
      subst ha
      rw [consistencyStep_mid_st h1 h2 (by decide) rs n]
      show enumFix (some (Json.str "LIKELY_TAMPERED")) ≠ "LIKELY_AUTHENTIC"
      decide
    | false =>
      cases hA : isStr a0 "LIKELY_AUTHENTIC" with
      | true =>
        have ha := isStr_eq hA
        subst ha
        rw [consistencyStep_mid_auth h1 h2 (by decide) (by decide) (by decide) rs n]
        show enumFix (some (Json.str "MANUAL_REVIEW")) ≠ "LIKELY_AUTHENTIC"
        decide
      | false =>
        rw [consistencyStep_mid_other h1 h2 hS hT hA rs n]
        have hfixa : enumFix a0 = "MANUAL_REVIEW" := enumFix_of_not_aut_sus_tam hS hT hA
        show enumFix a0 ≠ "LIKELY_AUTHENTIC"
        rw [hfixa]
        decide

/-- C2: for every input whose clamped confidence (default `0.5` when the
field is absent or not a number) is strictly below `0.4`, the normalized
assessment is `MANUAL_REVIEW` regardless of the stated assessment, the
standard low-confidence abstain reason is present in the output
`abstainedReasons`, and it is appended only if not already present (an
input array already containing it is returned unchanged). -/
theorem c2_low_confidence_forces_manual_review (response : Json)
    (h : clampedConfidence response < Rat.divInt 2 5) :
    (validateAndFixResponse response).overallAssessment = "MANUAL_REVIEW" ∧
    hasStr (validateAndFixResponse response).abstainedReasons lowConfidenceReason = true ∧
    (hasStr (asArr (getField response "abstainedReasons")) lowConfidenceReason = true →
      (validateAndFixResponse response).abstainedReasons
        = asArr (getField response "abstainedReasons")) := by
  have hfix := consistencyStep_low h (getField response "overallAssessment")
    (asArr (getField response "abstainedReasons")) (highSeverityCount response)
  refine ⟨?_, ?_, ?_⟩
  · rw [vfr_overallAssessment_eq, hfix]
    rfl
  · rw [vfr_abstainedReasons_eq, hfix]
    exact hasStr_push_self _ _
  · intro hin
    rw [vfr_abstainedReasons_eq, hfix]
    exact pushIfMissing_of_has hin

/-- Input used to instantiate the C2 theorem: confidence `0.2`, stated
assessment `LIKELY_AUTHENTIC`. -/
def c2WitnessInput : Json :=
  Json.obj [("confidenceScore", Json.num (Rat.divInt 1 5)),
            ("overallAssessment", Json.str "LIKELY_AUTHENTIC")]

/-- Witness for C2 at confidence `0.2` with stated assessment
`LIKELY_AUTHENTIC`. -/
theorem c2_witness :
    (validateAndFixResponse c2WitnessInput).overallAssessment = "MANUAL_REVIEW" ∧
    hasStr (validateAndFixResponse c2WitnessInput).abstainedReasons lowConfidenceReason = true ∧
    (hasStr (asArr (getField c2WitnessInput "abstainedReasons")) lowConfidenceReason = true →
      (validateAndFixResponse c2WitnessInput).abstainedReasons
        = asArr (getField c2WitnessInput "abstainedReasons")) :=
  c2_low_confidence_forces_manual_review c2WitnessInput (by decide)

/-- Input refuting C3 as stated: moderate confidence, stated assessment
`LIKELY_AUTHENTIC`, and an abstain-reason array that already contains the
moderate-confidence reason twice. -/
def c3CounterexampleInput : Json :=
  Json.obj [("confidenceScore", Json.num (Rat.divInt 1 2)),
            ("overallAssessment", Json.str "LIKELY_AUTHENTIC"),
            ("abstainedReasons", Json.arr
              [Json.str moderateConfidenceReason, Json.str moderateConfidenceReason])]

/-- C3 counterexample: an in-band `LIKELY_AUTHENTIC` input whose
`abstainedReasons` already holds the moderate-confidence reason twice is in
the scope of the claim, yet the output contains the reason twice, not
exactly once (the guard only prevents a new push, it does not deduplicate). -/
theorem c3_counterexample :
    clampedConfidence c3CounterexampleInput = Rat.divInt 1 2 ∧
    isStr (getField c3CounterexampleInput "overallAssessment") "LIKELY_AUTHENTIC" = true ∧
    (validateAndFixResponse c3CounterexampleInput).overallAssessment = "MANUAL_REVIEW" ∧
    countStr (validateAndFixResponse c3CounterexampleInput).abstainedReasons
      moderateConfidenceReason ≠ 1 :=
  ⟨by decide, by decide, by decide, by decide⟩

/-- C3 (amended): with clamped confidence in `[0.4, 0.7)`, a stated
`LIKELY_AUTHENTIC` is downgraded to `MANUAL_REVIEW`; the moderate-confidence
reason is present afterwards, is appended exactly once when the input did
not already contain it, and applying the normalizer a second time adds no
further occurrence; stated `SUSPICIOUS_ANOMALIES_DETECTED` and
`LIKELY_TAMPERED` are left unchanged. -/
theorem c3_moderate_band (response : Json)
    (h1 : Rat.divInt 2 5 ≤ clampedConfidence response)
    (h2 : clampedConfidence response < Rat.divInt 7 10) :
    (isStr (getField response "overallAssessment") "LIKELY_AUTHENTIC" = true →
      (validateAndFixResponse response).overallAssessment = "MANUAL_REVIEW" ∧
      hasStr (validateAndFixResponse response).abstainedReasons moderateConfidenceReason = true ∧
      (hasStr (asArr (getField response "abstainedReasons")) moderateConfidenceReason = false →
        countStr (validateAndFixResponse response).abstainedReasons moderateConfidenceReason = 1) ∧
      countStr (validateAndFixResponse (analysisResultToJson
          (validateAndFixResponse response))).abstainedReasons moderateConfidenceReason
        = countStr (validateAndFixResponse response).abstainedReasons moderateConfidenceReason) ∧
    (isStr (getField response "overallAssessment") "SUSPICIOUS_ANOMALIES_DETECTED" = true →
      (validateAndFixResponse response).overallAssessment = "SUSPICIOUS_ANOMALIES_DETECTED") ∧
    (isStr (getField response "overallAssessment") "LIKELY_TAMPERED" = true →
      (validateAndFixResponse response).overallAssessment = "LIKELY_TAMPERED") := by
  refine ⟨?_, ?_, ?_⟩
  · intro hA
    have hS := isStr_of_eq_ne "SUSPICIOUS_ANOMALIES_DETECTED" hA (by decide)
    have hT := isStr_of_eq_ne "LIKELY_TAMPERED" hA (by decide)
    have hfix := consistencyStep_mid_auth h1 h2 hS hT hA
      (asArr (getField response "abstainedReasons")) (highSeverityCount response)
    refine ⟨?_, ?_, ?_, ?_⟩
    · rw [vfr_overallAssessment_eq, hfix]
      rfl
    · rw [vfr_abstainedReasons_eq, hfix]
      exact hasStr_push_self _ _
    · intro hmiss
      rw [vfr_abstainedReasons_eq, hfix]
      exact countStr_push_fresh hmiss
    · rw [validateAndFixResponse_idem]
  · intro hS
    rw [vfr_overallAssessment_eq, consistencyStep_mid_st h1 h2 (by simp [hS]) _ _,
        isStr_eq hS]
    rfl
  · intro hT
    have hS := isStr_of_eq_ne "SUSPICIOUS_ANOMALIES_DETECTED" hT (by decide)
    rw [vfr_overallAssessment_eq, consistencyStep_mid_st h1 h2 (by simp [hS, hT]) _ _,
        isStr_eq hT]
    rfl

/-- Input used to instantiate the C3 theorem: the spec's example, confidence
`0.5` with stated assessment `LIKELY_AUTHENTIC` and no prior reasons. -/
def c3WitnessInput : Json :=
  Json.obj [("confidenceScore", Json.num (Rat.divInt 1 2)),
            ("overallAssessment", Json.str "LIKELY_AUTHENTIC")]

/-- Witness for the amended C3 at confidence `0.5`, `LIKELY_AUTHENTIC`:
downgraded to `MANUAL_REVIEW` with the moderate-confidence reason exactly
once, also after a second application. -/
theorem c3_witness :
    (validateAndFixResponse c3WitnessInput).overallAssessment = "MANUAL_REVIEW" ∧
    countStr (validateAndFixResponse c3WitnessInput).abstainedReasons
      moderateConfidenceReason = 1 ∧
    countStr (validateAndFixResponse (analysisResultToJson
        (validateAndFixResponse c3WitnessInput))).abstainedReasons moderateConfidenceReason
      = countStr (validateAndFixResponse c3WitnessInput).abstainedReasons
          moderateConfidenceReason := by
  have h := (c3_moderate_band c3WitnessInput (by decide) (by decide)).1 (by decide)
  exact ⟨h.1, h.2.2.1 (by decide), h.2.2.2⟩

/-- C4: with clamped confidence at least `0.7`, a stated enumeration
assessment is kept as stated, except that `LIKELY_TAMPERED` with fewer than
two `High`-severity findings is downgraded one level to
`SUSPICIOUS_ANOMALIES_DETECTED`. -/
theorem c4_high_confidence_assessments (response : Json)
    (h : Rat.divInt 7 10 ≤ clampedConfidence response) :
    (isStr (getField response "overallAssessment") "LIKELY_TAMPERED" = true →
        highSeverityCount response < 2 →
        (validateAndFixResponse response).overallAssessment
          = "SUSPICIOUS_ANOMALIES_DETECTED") ∧
    (isStr (getField response "overallAssessment") "LIKELY_TAMPERED" = true →
        2 ≤ highSeverityCount response →
        (validateAndFixResponse response).overallAssessment = "LIKELY_TAMPERED") ∧
    (isStr (getField response "overallAssessment") "LIKELY_AUTHENTIC" = true →
        (validateAndFixResponse response).overallAssessment = "LIKELY_AUTHENTIC") ∧
    (isStr (getField response "overallAssessment") "SUSPICIOUS_ANOMALIES_DETECTED" = true →
        (validateAndFixResponse response).overallAssessment
          = "SUSPICIOUS_ANOMALIES_DETECTED") ∧
    (isStr (getField response "overallAssessment") "MANUAL_REVIEW" = true →
        (validateAndFixResponse response).overallAssessment = "MANUAL_REVIEW") := by
  refine ⟨?_, ?_, ?_, ?_, ?_⟩
  · intro hT hn
    rw [vfr_overallAssessment_eq, consistencyStep_high_tam_low h hT _ hn]
    rfl
  · intro hT hn
    rw [vfr_overallAssessment_eq, consistencyStep_high_tam_ge h hT _ (not_lt.2 hn),
        isStr_eq hT]
    rfl
  · intro hA
    have hS := isStr_of_eq_ne "SUSPICIOUS_ANOMALIES_DETECTED" hA (by decide)
    have hT := isStr_of_eq_ne "LIKELY_TAMPERED" hA (by decide)
    rw [vfr_overallAssessment_eq, consistencyStep_high_other h hS hT _ _, isStr_eq hA]
    rfl
  · intro hS
    rw [vfr_overallAssessment_eq, consistencyStep_high_sus h hS _ _, isStr_eq hS]
    rfl
  · intro hM
    have hS := isStr_of_eq_ne "SUSPICIOUS_ANOMALIES_DETECTED" hM (by decide)
    have hT := isStr_of_eq_ne "LIKELY_TAMPERED" hM (by decide)
    rw [vfr_overallAssessment_eq, consistencyStep_high_other h hS hT _ _, isStr_eq hM]
    rfl

/-- Input used to instantiate the C4 theorem: the spec's example, confidence
`0.75`, stated `LIKELY_TAMPERED`, exactly one `High`-severity finding. -/
def c4WitnessInput : Json :=
  Json.obj [("confidenceScore", Json.num (Rat.divInt 3 4)),
            ("overallAssessment", Json.str "LIKELY_TAMPERED"),
            ("detailedFindings", Json.arr [Json.obj [("severity", Json.str "High")]])]

/-- Witness for C4: confidence `0.75`, `LIKELY_TAMPERED`, one High finding
is downgraded to `SUSPICIOUS_ANOMALIES_DETECTED`. -/
theorem c4_witness :
    (validateAndFixResponse c4WitnessInput).overallAssessment
      = "SUSPICIOUS_ANOMALIES_DETECTED" :=
  (c4_high_confidence_assessments c4WitnessInput (by decide)).1 (by decide) (by decide)

/-- C5: the normalizer is idempotent — feeding a normalized result (as the
JSON object it is at runtime) back through `validateAndFixResponse` returns
it unchanged: the field repairs are no-ops on already-valid data and the
confidence/assessment consistency rule never flips the assessment again. -/
theorem c5_normalizer_idempotent (response : Json) :
    validateAndFixResponse (analysisResultToJson (validateAndFixResponse response))
      = validateAndFixResponse response :=
  validateAndFixResponse_idem response

/-- C10: output invariant of the normalizer — a normalized result can carry
assessment `LIKELY_AUTHENTIC` only when its clamped confidence is at least
`0.7` (the low and moderate bands can never emit it), and the output
assessment is always one of the four enumeration members. -/
theorem c10_authentic_implies_high_confidence (response : Json) :
    ((validateAndFixResponse response).overallAssessment = "LIKELY_AUTHENTIC" →
      Rat.divInt 7 10 ≤ (validateAndFixResponse response).confidenceScore) ∧
    (validateAndFixResponse response).overallAssessment ∈ assessmentEnum := by
  constructor
  · intro hA
    rw [vfr_confidenceScore_eq]
    rw [vfr_overallAssessment_eq] at hA
    by_contra hlt
    push_neg at hlt
    rcases lt_or_le (clampedConfidence response) (Rat.divInt 2 5) with h1 | h1
    · rw [consistencyStep_low h1] at hA
      have h2 : ("MANUAL_REVIEW" : String) = "LIKELY_AUTHENTIC" := hA
      exact absurd h2 (by decide)
    · exact absurd hA (midband_not_auth _ _ _ h1 hlt)
  · exact enumFix_mem _

/-- Input used to instantiate the C10 theorem: confidence `0.8`, stated
assessment `LIKELY_AUTHENTIC`, which the normalizer keeps. -/
def c10WitnessInput : Json :=
  Json.obj [("confidenceScore", Json.num (Rat.divInt 4 5)),
            ("overallAssessment", Json.str "LIKELY_AUTHENTIC")]

/-- Witness for C10 at a kept `LIKELY_AUTHENTIC` output. -/
theorem c10_witness :
    Rat.divInt 7 10 ≤ (validateAndFixResponse c10WitnessInput).confidenceScore ∧
    (validateAndFixResponse c10WitnessInput).overallAssessment ∈ assessmentEnum :=
  ⟨(c10_authentic_implies_high_confidence c10WitnessInput).1 (by decide),
   (c10_authentic_implies_high_confidence c10WitnessInput).2⟩

/-- Unit-interval check on one rational value. -/
def unitCheck (q : ℚ) : Bool := decide (0 ≤ q) && decide (q ≤ 1)

/-- Range check on one numeric field of a raw JSON value (non-numeric and
absent fields are not range-constrained). -/
def numFieldUnit (j : Json) (k : String) : Bool :=
  match getField j k with
  | some (Json.num q) => unitCheck q
  | _ => true

/-- Range check on the four coordinates of a raw clone-match region. -/
def regionFieldsUnit (v : Option Json) : Bool :=
  match v with
  | some r => numFieldUnit r "x" && numFieldUnit r "y" &&
      numFieldUnit r "width" && numFieldUnit r "height"
  | none => true

/-- Range check on one raw clone-match pair: both regions and the
similarity score. -/
def cloneMatchUnit (cm : Json) : Bool :=
  regionFieldsUnit (getField cm "region1") && regionFieldsUnit (getField cm "region2") &&
    numFieldUnit cm "similarity"

/-- Claim C6's range property stated from the spec's words, as a checker
over the normalized result: every documented numeric field in `[0,1]`,
including the numeric fields of every clone-match pair and the softness of
every lighting vector. -/
def resultNumericsInUnitSpec (r : AnalysisResult) : Bool :=
  unitCheck r.confidenceScore && unitCheck r.imageQualityScore &&
  r.detailedFindings.all (fun f =>
    unitCheck f.evidenceStrength && unitCheck f.region.x && unitCheck f.region.y &&
    unitCheck f.region.width && unitCheck f.region.height &&
    f.cloneMatches.all cloneMatchUnit && numFieldUnit f.lightingVector "softness")

/-- Range property restricted to the numeric fields the code actually
clamps: the confidence score, the image-quality score, and each finding's
evidence strength and region coordinates. -/
def clampedNumericsInUnit (r : AnalysisResult) : Bool :=
  unitCheck r.confidenceScore && unitCheck r.imageQualityScore &&
  r.detailedFindings.all (fun f =>
    unitCheck f.evidenceStrength && unitCheck f.region.x && unitCheck f.region.y &&
    unitCheck f.region.width && unitCheck f.region.height)

/-- Input refuting C6 as stated: a finding whose clone-match pair carries a
similarity of `7` and a region coordinate of `5`, and whose lighting vector
has softness `3`. -/
def c6CounterexampleInput : Json :=
  Json.obj [("confidenceScore", Json.num (Rat.divInt 9 10)),
            ("detailedFindings", Json.arr
              [Json.obj
                [("cloneMatches", Json.arr
                   [Json.obj [("region1", Json.obj [("x", Json.num 5)]),
                              ("similarity", Json.num 7)]]),
                 ("lightingVector", Json.obj [("softness", Json.num 3)])]])]

/-- C6 counterexample: the normalizer passes `cloneMatches` and
`lightingVector` through without numeric repair, so out-of-range
clone-match numerics and lighting softness survive into the output. -/
theorem c6_counterexample :
    resultNumericsInUnitSpec (validateAndFixResponse c6CounterexampleInput) = false := by
  decide

theorem unitCheck_of {q : ℚ} (h0 : 0 ≤ q) (h1 : q ≤ 1) : unitCheck q = true := by
  simp [unitCheck, h0, h1]

theorem unitCheck_numClamp (v : Option Json) {d : ℚ} (h0 : 0 ≤ d) (h1 : d ≤ 1) :
    unitCheck (numClamp v d) = true :=
  unitCheck_of (numClamp_nonneg v h0) (numClamp_le_one v h1)

/-- C6 (amended): for every input, the numeric fields the normalizer clamps
— `confidenceScore`, `imageQualityScore`, and each finding's
`evidenceStrength` and region coordinates — lie in `[0,1]` in the output;
clone-match pairs and lighting vectors are passed through unrepaired. -/
theorem c6_clamped_numerics_in_unit (response : Json) :
    clampedNumericsInUnit (validateAndFixResponse response) = true := by
  simp only [clampedNumericsInUnit, Bool.and_eq_true, List.all_eq_true]
  refine ⟨⟨unitCheck_numClamp _ (by decide) (by decide),
           unitCheck_numClamp _ (by decide) (by decide)⟩, ?_⟩
  intro f hf
  rcases List.mem_map.1 hf with ⟨j, _, rfl⟩
  refine ⟨⟨⟨⟨unitCheck_numClamp _ (by decide) (by decide),
             unitCheck_numClamp _ (by norm_num) (by norm_num)⟩,
            unitCheck_numClamp _ (by norm_num) (by norm_num)⟩,
           unitCheck_numClamp _ (by decide) (by decide)⟩,
          unitCheck_numClamp _ (by decide) (by decide)⟩

/-- C7: model-name classification is a static lookup — `"o3"` and
`"o4-mini"` classify into the reasoning family, and every model name
absent from all known-model lists (for example `"unknown-model-xyz"`)
falls back to the code's `'legacy'` type, which is the spec's standard
family. -/
theorem c7_model_classification :
    modelFamily "o3" = ModelFamily.reasoning ∧
    modelFamily "o4-mini" = ModelFamily.reasoning ∧
    modelFamily "unknown-model-xyz" = ModelFamily.standard ∧
    ∀ modelName : String,
      MODEL_CATEGORIES.all (fun cat => !(cat.2.models.contains modelName)) = true →
      getModelType modelName = ModelType.legacy ∧
      modelFamily modelName = ModelFamily.standard := by
  refine ⟨rfl, rfl, rfl, ?_⟩
  intro modelName h
  simp only [List.all_cons, MODEL_CATEGORIES, List.all_nil, Bool.and_eq_true,
    Bool.not_eq_true'] at h
  obtain ⟨h1, h2, h3, h4, -⟩ := h
  have hleg : getModelType modelName = ModelType.legacy := by
    simp only [getModelType, findModelType, MODEL_CATEGORIES, h1, h2, h3, h4,
      Bool.false_eq_true, if_false]
  refine ⟨hleg, ?_⟩
  show modelFamilyOfType (getModelType modelName) = ModelFamily.standard
  rw [hleg]
  rfl

/-- Witness for C7's fallback branch at `"unknown-model-xyz"`. -/
theorem c7_witness :
    getModelType "unknown-model-xyz" = ModelType.legacy ∧
    modelFamily "unknown-model-xyz" = ModelFamily.standard :=
  c7_model_classification.2.2.2 "unknown-model-xyz" (by decide)

/-- C8: for every parameter configuration of the reasoning (`'o-series'`)
model type, the wire-parameter object carries exactly the keys
`max_output_tokens` and `reasoning` (the nested reasoning-effort level) —
in particular no `temperature`, `top_p`, `frequency_penalty` or
`presence_penalty` key. -/
theorem c8_reasoning_wire_params (config : ModelParameterConfig)
    (h : config.modelType = ModelType.oSeries) :
    (createAPIParameterConfig config).map Prod.fst = ["max_output_tokens", "reasoning"] ∧
    wireLookup (createAPIParameterConfig config) "temperature" = none ∧
    wireLookup (createAPIParameterConfig config) "top_p" = none ∧
    wireLookup (createAPIParameterConfig config) "frequency_penalty" = none ∧
    wireLookup (createAPIParameterConfig config) "presence_penalty" = none := by
  obtain ⟨mt, p⟩ := config
  have hmt : mt = ModelType.oSeries := h
  subst hmt
  exact ⟨rfl, rfl, rfl, rfl, rfl⟩

/-- Configuration used to instantiate the C8 theorem: the o-series defaults
of `DEFAULT_PARAMETERS`. -/
def c8WitnessConfig : ModelParameterConfig :=
  { modelType := ModelType.oSeries
    parameters := ModelParameters.reasoning
      { temperature := Rat.divInt 1 10
        maxOutputTokens := 4000
        reasoningEffort := "medium"
        reasoningStrategy := "default" } }

/-- Witness for C8 at the default o-series configuration. -/
theorem c8_witness :
    (createAPIParameterConfig c8WitnessConfig).map Prod.fst
      = ["max_output_tokens", "reasoning"] ∧
    wireLookup (createAPIParameterConfig c8WitnessConfig) "temperature" = none :=
  ⟨(c8_reasoning_wire_params c8WitnessConfig rfl).1,
   (c8_reasoning_wire_params c8WitnessConfig rfl).2.1⟩

theorem validateApiKey_empty (provider : Provider) : validateApiKey provider "" = false := rfl

theorem validateApiKey_true_nonempty {provider : Provider} {k : String}
    (h : validateApiKey provider k = true) : k ≠ "" := by
  intro he
  rw [he, validateApiKey_empty] at h
  exact Bool.false_ne_true h

theorem validateApiKey_true_trim_nonzero {provider : Provider} {k : String}
    (h : validateApiKey provider k = true) : (jsTrim k).length ≠ 0 := by
  intro he
  have hk : k ≠ "" := validateApiKey_true_nonempty h
  simp [validateApiKey, hk, he] at h

theorem isPre_of_append (xs ys l : List Char) (h : isPre (xs ++ ys) l = true) :
    isPre xs l = true := by
  induction xs generalizing l with
  | nil => rfl
  | cons x xs ih =>
    cases l with
    | nil => simp [isPre] at h
    | cons c cs =>
      by_cases hx : x = c
      · simp only [List.cons_append, isPre, if_pos hx] at h ⊢
        exact ih cs h
      · simp only [List.cons_append, isPre, if_neg hx] at h
        exact absurd h (by decide)

/-- C9: credential resolution — a user-supplied credential that passes the
provider's format check is returned in preference to the deployment
default; one that fails the check falls back to the deployment default (so
the result is absent exactly when the default is also absent); and the
OpenAI format check accepts exactly the trimmed keys that begin with
`sk-` and have length at least 20. -/
theorem c9_credential_resolution :
    (∀ (env : EnvKeys) (provider : Provider) (k : String),
        validateApiKey provider k = true →
          getEffectiveApiKey env provider (some k) = some k) ∧
    (∀ (env : EnvKeys) (provider : Provider) (k : String),
        validateApiKey provider k = false →
          getEffectiveApiKey env provider (some k) = envFallback env provider) ∧
    (∀ (env : EnvKeys) (provider : Provider),
        getEffectiveApiKey env provider none = envFallback env provider) ∧
    (∀ k : String,
        validateApiKey Provider.openai k = true ↔
          (strStartsWith (jsTrim k) "sk-" = true ∧ 20 ≤ (jsTrim k).length)) := by
  refine ⟨?_, ?_, ?_, ?_⟩
  · intro env provider k h
    have hk : k ≠ "" := validateApiKey_true_nonempty h
    have htrim : (jsTrim k).length ≠ 0 := validateApiKey_true_trim_nonzero h
    simp [getEffectiveApiKey, hk, htrim, h]
  · intro env provider k h
    simp [getEffectiveApiKey, h]
  · intro env provider
    rfl
  · intro k
    constructor
    · intro h
      have hk : k ≠ "" := validateApiKey_true_nonempty h
      have htrim : (jsTrim k).length ≠ 0 := validateApiKey_true_trim_nonzero h
      simp only [validateApiKey, if_neg hk, if_neg htrim, Bool.and_eq_true,
        Bool.or_eq_true, decide_eq_true_eq] at h
      obtain ⟨hsw, hlen⟩ := h
      refine ⟨?_, hlen⟩
      rcases hsw with hsw | hsw
      · exact hsw
      · have hsplit : ("sk-proj-" : String).data = ("sk-" : String).data ++ "proj-".data := rfl
        unfold strStartsWith at hsw ⊢
        rw [hsplit] at hsw
        exact isPre_of_append _ _ _ hsw
    · intro hconj
      obtain ⟨hsw, hlen⟩ := hconj
      have htne : jsTrim k ≠ "" := by
        intro he
        rw [he] at hlen
        exact absurd hlen (by decide)
      have hk : k ≠ "" := by
        intro he
        apply htne
        rw [he]
        rfl
      have hlen0 : (jsTrim k).length ≠ 0 := by
        intro he
        rw [he] at hlen
        exact absurd hlen (by decide)
      simp [validateApiKey, hk, hlen0, hsw, hlen]

/-- Environment used to instantiate the C9 theorem: only an OpenAI
deployment default is set. -/
def c9WitnessEnv : EnvKeys :=
  { googleApiKey := none
    openaiApiKey := some "sk-environment-default-key"
    azureOpenaiApiKey := none
    bedrockProxyUrl := none }

/-- Witness for C9: a well-formed user key wins over the deployment
default, a malformed one falls back to it, an absent one falls back to it,
and the OpenAI format check holds of the well-formed key. -/
theorem c9_witness :
    getEffectiveApiKey c9WitnessEnv Provider.openai (some "sk-abcdefghijklmnopqrstuvwx")
      = some "sk-abcdefghijklmnopqrstuvwx" ∧
    getEffectiveApiKey c9WitnessEnv Provider.openai (some "bad-key")
      = some "sk-environment-default-key" ∧
    getEffectiveApiKey c9WitnessEnv Provider.openai none
      = some "sk-environment-default-key" ∧
    validateApiKey Provider.openai "sk-abcdefghijklmnopqrstuvwx" = true :=
  ⟨c9_credential_resolution.1 c9WitnessEnv Provider.openai
      "sk-abcdefghijklmnopqrstuvwx" (by decide),
   c9_credential_resolution.2.1 c9WitnessEnv Provider.openai "bad-key" (by decide),
   c9_credential_resolution.2.2.1 c9WitnessEnv Provider.openai,
   (c9_credential_resolution.2.2.2 "sk-abcdefghijklmnopqrstuvwx").2
     ⟨by decide, by decide⟩⟩
